import Mathlib

/-!
Verification of `drivers/infiniband/hw/hfi1/intr.c`: a shallow embedding of
the link-state controller (`handle_linkup_change`), the management permission
negotiator (`set_mgmt_allowed`, `add_full_mgmt_pkey`), the event notifier
(`signal_ib_event`) and the user-context interrupt dispatcher
(`handle_user_interrupt`), together with theorems about them.

External collaborators (register reads, hardware configuration calls, wait
queues, logging) are modelled as an environment of read oracles plus an
ordered trace of emitted actions.  Header constants not present in the
source file are given fixed concrete values; no theorem below depends on
the particular value chosen.
-/

/-- `LINK_UP_DELAY` from the source, in microseconds. -/
def LINK_UP_DELAY : Nat := 500

/-- Modelled from the spec: the neighbor node type denoting an
adapter-type (host-to-host) peer; header constant, value symbolic. -/
def NEIGHBOR_TYPE_HFI : Nat := 0

/-- Modelled from the spec: the full-management partition key sentinel;
header constant. -/
def FULL_MGMT_P_KEY : Nat := 0xFFFF

/-- Modelled from the spec: shift for the management-allowed bit field in
the partner general-link-configuration frame; header constant. -/
def MGMT_ALLOWED_SHIFT : Nat := 23

/-- Modelled from the spec: mask for the management-allowed bit field;
header constant. -/
def MGMT_ALLOWED_MASK : Nat := 0x1

/-- Modelled from the spec: 8051 configuration field identifier
`REMOTE_LNI_INFO`; header constant, value symbolic. -/
def REMOTE_LNI_INFO : Nat := 203

/-- Modelled from the spec: 8051 configuration type `GENERAL_CONFIG`;
header constant, value symbolic. -/
def GENERAL_CONFIG : Nat := 4

/-- Modelled from the spec: device icode value meaning the functional
simulator; header constant, value symbolic. -/
def ICODE_FUNCTIONAL_SIMULATOR : Nat := 3

/-- Modelled from the spec: CSR address of the remote GUID status
register; value symbolic, only used as an oracle key. -/
def DC_DC8051_STS_REMOTE_GUID : Nat := 0

/-- Modelled from the spec: CSR address of the remote node type status
register; value symbolic. -/
def DC_DC8051_STS_REMOTE_NODE_TYPE : Nat := 1

/-- Modelled from the spec: CSR address of the remote port number status
register; value symbolic. -/
def DC_DC8051_STS_REMOTE_PORT_NO : Nat := 2

/-- Modelled from the spec: CSR address of the remote fabric-management
security status register; value symbolic. -/
def DC_DC8051_STS_REMOTE_FM_SECURITY : Nat := 3

/-- Modelled from the spec: value mask for the remote node type field;
header constant, value symbolic. -/
def DC_DC8051_STS_REMOTE_NODE_TYPE_VAL_MASK : Nat := 0x3

/-- Modelled from the spec: value mask for the remote port number field;
header constant, value symbolic. -/
def DC_DC8051_STS_REMOTE_PORT_NO_VAL_SMASK : Nat := 0xFF

/-- Modelled from the spec: mask for the local fabric-management
security-disabled bit; header constant, value symbolic. -/
def DC_DC8051_STS_LOCAL_FM_SECURITY_DISABLED_MASK : Nat := 0x1

/-- Modelled from the spec: freeze reason flag "self-initiated";
header constant, value symbolic. -/
def FREEZE_SELF : Nat := 0x1

/-- Modelled from the spec: freeze reason flag "caused by link down";
header constant, value symbolic. -/
def FREEZE_LINK_DOWN : Nat := 0x2

/-- Modelled from the spec: bit index of the user-visible link-down event
bit (`_HFI1_EVENT_LINKDOWN_BIT`); header constant, value symbolic. -/
def HFI1_EVENT_LINKDOWN_BIT : Nat := 0

/-- Modelled from the spec: `OPA_LINKDOWN_REASON_NONE`, the sentinel
meaning "no offline-disabled reason"; header constant. -/
def OPA_LINKDOWN_REASON_NONE : Nat := 0

/-- Modelled from the spec: `HFI1_ODR_MASK`, packing a link-down reason
into the offline-disabled-reason field; header macro, modelled as the
identity on the reason code. -/
def HFI1_ODR_MASK (reason : Nat) : Nat := reason

/-- Modelled from the spec: `IB_EVENT_PORT_ERR` from the upstream verbs
enum `ib_event_type`; header constant. -/
def IB_EVENT_PORT_ERR : Nat := 10

/-- Modelled from the spec: bit index of the "waiting for receive" flag
(`HFI1_CTXT_WAITING_RCV`); header constant, value symbolic. -/
def HFI1_CTXT_WAITING_RCV : Nat := 0

/-- Modelled from the spec: bit index of the "waiting for urgent" flag
(`HFI1_CTXT_WAITING_URG`); header constant, value symbolic. -/
def HFI1_CTXT_WAITING_URG : Nat := 1

/-- Modelled from the spec: width of the in-use sub-context bitmap
(`HFI1_MAX_SHARED_CTXTS`); header constant. -/
def HFI1_MAX_SHARED_CTXTS : Nat := 8

/-- Per-port state (`struct hfi1_pportdata`), restricted to the fields
this translation unit reads or writes.  `uevent_bits` models the
user-visible event bit mask touched by `hfi1_set_uevent_bits`. -/
structure Pport where
  linkup : Bool
  neighbor_guid : Nat
  neighbor_type : Nat
  neighbor_port_number : Nat
  neighbor_fm_security : Nat
  pkeys : Nat → Nat
  mgmt_allowed : Nat
  offline_disabled_reason : Nat
  actual_vls_operational : Nat
  neighbor_normal : Nat
  port : Nat
  uevent_bits : Nat

/-- Per-device state (`struct hfi1_devdata`), restricted to the fields
this translation unit uses.  `initted` is `dd->flags & HFI1_INITTED`;
`devId` stands for the upstream device identity
(`&dd->verbs_dev.rdi.ibdev`). -/
structure Devdata where
  initted : Bool
  icode : Nat
  vau : Nat
  vcu : Nat
  vl15_init : Nat
  devId : Nat
  pport : Pport

/-- User receive-context state (`struct hfi1_ctxtdata`), restricted to the
fields `handle_user_interrupt` uses.  `event_flags` is the per-context
flag bit set, modelled as a predicate on bit indices; `intravail_enabled`
models the hardware receive-available interrupt-enable bit driven by
`hfi1_rcvctrl`. -/
structure Ctxtdata where
  in_use_ctxts : Nat
  event_flags : Nat → Bool
  urgent : Nat
  intravail_enabled : Bool

/-- Environment of read oracles: the `quick_linkup` module parameter, the
CSR read collaborator `read_csr`, and the 8051 configuration read
collaborator `read_8051_config` (field id, config type). -/
structure Env where
  quick_linkup : Bool
  read_csr : Nat → Nat
  read_8051_config : Nat → Nat → Nat

/-- One externally visible effect, recorded in program order.
`writeLinkup` marks the store to `ppd->linkup`; `signalIbEvent` marks the
invocation of the event notifier; `dispatchIbEvent` is the event record
actually forwarded upstream by `ib_dispatch_event`, carrying the device
identity, the port number and the event kind. -/
inductive Effect where
  | setUpVau (v : Nat)
  | setUpVl15 (v : Nat)
  | assignRemoteCmAuTable (v : Nat)
  | devInfo
  | devWarn
  | udelay (us : Nat)
  | setIbCfgPkeys
  | eventPkeyChange (port : Nat)
  | signalIbEvent (ev : Nat)
  | dispatchIbEvent (dev : Nat) (port : Nat) (ev : Nat)
  | resetLinkCredits
  | startFreezeHandling (reasons : Nat)
  | getLinkupLinkWidths
  | writeLinkup (b : Bool)
  | rcvctrlIntravailDis
  | wakeUpInterruptible
deriving DecidableEq

/-- `set_mgmt_allowed` from the source: a direct adapter-type neighbor
always allows management; otherwise the allowed flag is the bit field
extracted from the partner general-link-configuration frame. -/
def set_mgmt_allowed (env : Env) (ppd : Pport) : Pport :=
  if ppd.neighbor_type = NEIGHBOR_TYPE_HFI then
    { ppd with mgmt_allowed := 1 }
  else
    let frame := env.read_8051_config REMOTE_LNI_INFO GENERAL_CONFIG
    { ppd with mgmt_allowed := (frame >>> MGMT_ALLOWED_SHIFT) &&& MGMT_ALLOWED_MASK }

/-- `add_full_mgmt_pkey` from the source: warn if slot 2 is neither 0 nor
already the sentinel, then unconditionally set slot 2 to the sentinel,
push the key table to hardware and notify listeners of the change. -/
def add_full_mgmt_pkey (ppd : Pport) : Pport × List Effect :=
  let warns : List Effect :=
    if ¬(ppd.pkeys 2 = 0 ∨ ppd.pkeys 2 = FULL_MGMT_P_KEY) then [.devWarn] else []
  ({ ppd with pkeys := Function.update ppd.pkeys 2 FULL_MGMT_P_KEY },
   warns ++ [.setIbCfgPkeys, .eventPkeyChange ppd.port])

/-- `signal_ib_event` from the source: forward an event record upstream
only when the device has completed registration with the IB core
(`dd->flags & HFI1_INITTED`). -/
def signal_ib_event (dd : Devdata) (ev : Nat) : List Effect :=
  if ¬dd.initted then []
  else [.dispatchIbEvent dd.devId dd.pport.port ev]

/-- The neighbor-information CSR reads of the up-transition of
`handle_linkup_change` (lines 108–118 of the source). -/
def read_neighbor_info (env : Env) (ppd : Pport) : Pport :=
  { ppd with
    neighbor_guid := env.read_csr DC_DC8051_STS_REMOTE_GUID,
    neighbor_type := env.read_csr DC_DC8051_STS_REMOTE_NODE_TYPE &&&
      DC_DC8051_STS_REMOTE_NODE_TYPE_VAL_MASK,
    neighbor_port_number := env.read_csr DC_DC8051_STS_REMOTE_PORT_NO &&&
      DC_DC8051_STS_REMOTE_PORT_NO_VAL_SMASK,
    neighbor_fm_security := env.read_csr DC_DC8051_STS_REMOTE_FM_SECURITY &&&
      DC_DC8051_STS_LOCAL_FM_SECURITY_DISABLED_MASK }

/-- `handle_linkup_change` from the source.  Returns the new device state
and the trace of external effects of this call, in program order.  The
guard `!(ppd->linkup ^ !!linkup)` is the equality test on the recorded
link-up flag. -/
def handle_linkup_change (env : Env) (dd : Devdata) (linkup : Bool) :
    Devdata × List Effect :=
  let ppd := dd.pport
  if ppd.linkup = linkup then (dd, [])
  else if linkup then
    let pre : List Effect :=
      if env.quick_linkup ∨ dd.icode = ICODE_FUNCTIONAL_SIMULATOR then
        [.setUpVau dd.vau, .setUpVl15 dd.vl15_init, .assignRemoteCmAuTable dd.vcu]
      else []
    let ppd1 := read_neighbor_info env ppd
    let ppd2 := set_mgmt_allowed env ppd1
    let step3 : Pport × List Effect :=
      if ppd2.mgmt_allowed ≠ 0 then add_full_mgmt_pkey ppd2 else (ppd2, [])
    let ppd4 := { step3.1 with
      linkup := true,
      offline_disabled_reason := HFI1_ODR_MASK OPA_LINKDOWN_REASON_NONE }
    ({ dd with pport := ppd4 },
     pre ++ [.devInfo, .udelay LINK_UP_DELAY] ++ step3.2 ++
       [.writeLinkup true, .getLinkupLinkWidths])
  else
    let ppd1 := { ppd with
      linkup := false,
      actual_vls_operational := 0,
      uevent_bits := ppd.uevent_bits ||| (1 <<< HFI1_EVENT_LINKDOWN_BIT),
      neighbor_normal := 0 }
    let dd1 := { dd with pport := ppd1 }
    (dd1,
     [.writeLinkup false, .resetLinkCredits,
      .startFreezeHandling (FREEZE_SELF ||| FREEZE_LINK_DOWN),
      .signalIbEvent IB_EVENT_PORT_ERR] ++ signal_ib_event dd1 IB_EVENT_PORT_ERR)

/-- Emptiness test of the in-use sub-context bitmap
(`bitmap_empty(rcd->in_use_ctxts, HFI1_MAX_SHARED_CTXTS)`). -/
def in_use_empty (rcd : Ctxtdata) : Prop :=
  rcd.in_use_ctxts % 2 ^ HFI1_MAX_SHARED_CTXTS = 0

instance (rcd : Ctxtdata) : Decidable (in_use_empty rcd) := by
  unfold in_use_empty; infer_instance

/-- `handle_user_interrupt` from the source.  Lock acquisition and release
bracket the whole body and are not part of the observable state; the two
`test_and_clear_bit` calls become conditional flag updates, priority to
the receive flag. -/
def handle_user_interrupt (rcd : Ctxtdata) : Ctxtdata × List Effect :=
  if in_use_empty rcd then (rcd, [])
  else if rcd.event_flags HFI1_CTXT_WAITING_RCV then
    ({ rcd with
        event_flags := Function.update rcd.event_flags HFI1_CTXT_WAITING_RCV false,
        intravail_enabled := false },
     [.wakeUpInterruptible, .rcvctrlIntravailDis])
  else if rcd.event_flags HFI1_CTXT_WAITING_URG then
    ({ rcd with
        event_flags := Function.update rcd.event_flags HFI1_CTXT_WAITING_URG false,
        urgent := rcd.urgent + 1 },
     [.wakeUpInterruptible])
  else (rcd, [])

/-! ### Helper lemmas -/

theorem set_mgmt_allowed_port (env : Env) (ppd : Pport) :
    (set_mgmt_allowed env ppd).port = ppd.port := by
  unfold set_mgmt_allowed; split <;> rfl

theorem read_neighbor_info_port (env : Env) (ppd : Pport) :
    (read_neighbor_info env ppd).port = ppd.port := rfl

theorem up_trace_eq (env : Env) (dd : Devdata) (h : dd.pport.linkup = false) :
    (handle_linkup_change env dd true).2 =
      (if env.quick_linkup ∨ dd.icode = ICODE_FUNCTIONAL_SIMULATOR
       then [.setUpVau dd.vau, .setUpVl15 dd.vl15_init,
             .assignRemoteCmAuTable dd.vcu] else [])
      ++ [.devInfo, .udelay LINK_UP_DELAY]
      ++ (if (set_mgmt_allowed env (read_neighbor_info env dd.pport)).mgmt_allowed ≠ 0
          then (add_full_mgmt_pkey (set_mgmt_allowed env (read_neighbor_info env dd.pport))).2
          else [])
      ++ [.writeLinkup true, .getLinkupLinkWidths] := by
  unfold handle_linkup_change
  simp [h]
  split <;> rfl

/-! ### Sample states used by the witness theorems -/

def envW : Env := ⟨false, fun _ => 0, fun _ _ => 0⟩

def ppdUpW : Pport := ⟨true, 0, 0, 0, 0, fun _ => 0, 0, 0, 3, 1, 1, 0⟩

def ddUpW : Devdata := ⟨true, 0, 0, 0, 0, 7, ppdUpW⟩

def ppdDownW : Pport := ⟨false, 0, 0, 0, 0, fun _ => 0, 0, 0, 0, 0, 1, 0⟩

def ddDownW : Devdata := ⟨false, 0, 0, 0, 0, 7, ppdDownW⟩

def rcdEmptyW : Ctxtdata := ⟨0, fun _ => false, 0, true⟩

def rcdBusyW : Ctxtdata := ⟨1, fun k => k == HFI1_CTXT_WAITING_RCV, 5, true⟩

/-! ### Claim theorems -/

/-- Claim C8: `set_mgmt_allowed` sets the management-allowed attribute to 1
when the neighbor node type is the adapter-type peer, and otherwise to the
bit field extracted from the partner general-link-configuration frame; it
writes no other port state. -/
theorem set_mgmt_allowed_spec (env : Env) (ppd : Pport) :
    (set_mgmt_allowed env ppd).mgmt_allowed =
      (if ppd.neighbor_type = NEIGHBOR_TYPE_HFI then 1
       else (env.read_8051_config REMOTE_LNI_INFO GENERAL_CONFIG >>>
               MGMT_ALLOWED_SHIFT) &&& MGMT_ALLOWED_MASK) ∧
    (set_mgmt_allowed env ppd).linkup = ppd.linkup ∧
    (set_mgmt_allowed env ppd).neighbor_guid = ppd.neighbor_guid ∧
    (set_mgmt_allowed env ppd).neighbor_type = ppd.neighbor_type ∧
    (set_mgmt_allowed env ppd).neighbor_port_number = ppd.neighbor_port_number ∧
    (set_mgmt_allowed env ppd).neighbor_fm_security = ppd.neighbor_fm_security ∧
    (set_mgmt_allowed env ppd).pkeys = ppd.pkeys ∧
    (set_mgmt_allowed env ppd).offline_disabled_reason = ppd.offline_disabled_reason ∧
    (set_mgmt_allowed env ppd).actual_vls_operational = ppd.actual_vls_operational ∧
    (set_mgmt_allowed env ppd).neighbor_normal = ppd.neighbor_normal ∧
    (set_mgmt_allowed env ppd).port = ppd.port ∧
    (set_mgmt_allowed env ppd).uevent_bits = ppd.uevent_bits := by
  unfold set_mgmt_allowed
  split <;> simp_all

/-- Claim C3: for every prior value of partition-key slot 2, including a
corrupted one, `add_full_mgmt_pkey` leaves slot 2 holding exactly the
full-management sentinel, emits a warning exactly when the prior value was
neither unset nor the sentinel, and always pushes the table and notifies
the pkey change (it never propagates an error). -/
theorem add_full_mgmt_pkey_slot2 (ppd : Pport) :
    (add_full_mgmt_pkey ppd).1.pkeys 2 = FULL_MGMT_P_KEY ∧
    (Effect.devWarn ∈ (add_full_mgmt_pkey ppd).2 ↔
      ¬(ppd.pkeys 2 = 0 ∨ ppd.pkeys 2 = FULL_MGMT_P_KEY)) ∧
    Effect.setIbCfgPkeys ∈ (add_full_mgmt_pkey ppd).2 ∧
    Effect.eventPkeyChange ppd.port ∈ (add_full_mgmt_pkey ppd).2 := by
  unfold add_full_mgmt_pkey
  refine ⟨by simp, ?_, by split <;> simp, by split <;> simp⟩
  split
  · simp_all
  · simp_all
    tauto

/-- Claim C6: `signal_ib_event` forwards an event upstream if and only if
the device has completed registration; when inactive, any number of calls
forward nothing, and when active the forwarded record carries the device
identity, the port number and the given event kind. -/
theorem signal_ib_event_spec (dd : Devdata) :
    (dd.initted = false →
      ∀ evs : List Nat, (evs.map (signal_ib_event dd)).flatten = []) ∧
    (dd.initted = true → ∀ ev : Nat,
      signal_ib_event dd ev = [Effect.dispatchIbEvent dd.devId dd.pport.port ev]) ∧
    (∀ ev : Nat, signal_ib_event dd ev ≠ [] ↔ dd.initted = true) := by
  refine ⟨fun h evs => ?_, fun h ev => ?_, fun ev => ?_⟩
  · induction evs with
    | nil => rfl
    | cons e tl ih => simp [signal_ib_event, h, ih]
  · simp [signal_ib_event, h]
  · cases h : dd.initted <;> simp [signal_ib_event, h]

/-- Witness for C6 at a registered device. -/
theorem signal_ib_event_spec_witness :
    ddUpW.initted = true ∧
    signal_ib_event ddUpW IB_EVENT_PORT_ERR =
      [Effect.dispatchIbEvent ddUpW.devId ddUpW.pport.port IB_EVENT_PORT_ERR] :=
  ⟨rfl, (signal_ib_event_spec ddUpW).2.1 rfl IB_EVENT_PORT_ERR⟩

/-- Claim C7: on a context whose in-use sub-context bitmap is empty,
`handle_user_interrupt` performs no wake and changes no state. -/
theorem handle_user_interrupt_empty (rcd : Ctxtdata) (h : in_use_empty rcd) :
    handle_user_interrupt rcd = (rcd, []) := by
  unfold handle_user_interrupt
  simp [h]

/-- Witness for C7 at a concrete context with an empty bitmap. -/
theorem handle_user_interrupt_empty_witness :
    in_use_empty rcdEmptyW ∧ handle_user_interrupt rcdEmptyW = (rcdEmptyW, []) :=
  ⟨by decide, handle_user_interrupt_empty rcdEmptyW (by decide)⟩

/-- Claim C10: `handle_user_interrupt` never modifies the in-use
sub-context bitmap, on any execution path. -/
theorem handle_user_interrupt_preserves_in_use (rcd : Ctxtdata) :
    (handle_user_interrupt rcd).1.in_use_ctxts = rcd.in_use_ctxts := by
  unfold handle_user_interrupt
  split
  · rfl
  · split
    · rfl
    · split <;> rfl

/-- Claim C2: a redundant call to `handle_linkup_change` (requested state
equal to the recorded link-up flag) is a no-op: the state is unchanged and
no effect, in particular no event, is emitted. -/
theorem handle_linkup_change_redundant (env : Env) (dd : Devdata) (b : Bool)
    (h : dd.pport.linkup = b) :
    handle_linkup_change env dd b = (dd, []) := by
  unfold handle_linkup_change
  simp [h]

/-- Witness for C2 at a concrete link-down device and a down request. -/
theorem handle_linkup_change_redundant_witness :
    ddDownW.pport.linkup = false ∧
    handle_linkup_change envW ddDownW false = (ddDownW, []) :=
  ⟨rfl, handle_linkup_change_redundant envW ddDownW false rfl⟩

/-- Claim C1: on a device whose port records link up, a down call leaves
the link-up flag false, zero operational virtual lanes, neighbor-normal
cleared, the user-visible link-down event bit set, and exactly one
port-error event emitted via the event notifier. -/
theorem handle_linkup_change_down (env : Env) (dd : Devdata)
    (h : dd.pport.linkup = true) :
    (handle_linkup_change env dd false).1.pport.linkup = false ∧
    (handle_linkup_change env dd false).1.pport.actual_vls_operational = 0 ∧
    (handle_linkup_change env dd false).1.pport.neighbor_normal = 0 ∧
    Nat.testBit (handle_linkup_change env dd false).1.pport.uevent_bits
      HFI1_EVENT_LINKDOWN_BIT = true ∧
    (handle_linkup_change env dd false).2.count
      (Effect.signalIbEvent IB_EVENT_PORT_ERR) = 1 := by
  unfold handle_linkup_change
  simp [h, HFI1_EVENT_LINKDOWN_BIT]
  cases hi : dd.initted <;>
    simp [signal_ib_event, hi, List.count_cons, IB_EVENT_PORT_ERR]

/-- Witness for C1 at a concrete link-up device. -/
theorem handle_linkup_change_down_witness :
    ddUpW.pport.linkup = true ∧
    ((handle_linkup_change envW ddUpW false).1.pport.linkup = false ∧
     (handle_linkup_change envW ddUpW false).1.pport.actual_vls_operational = 0 ∧
     (handle_linkup_change envW ddUpW false).1.pport.neighbor_normal = 0 ∧
     Nat.testBit (handle_linkup_change envW ddUpW false).1.pport.uevent_bits
       HFI1_EVENT_LINKDOWN_BIT = true ∧
     (handle_linkup_change envW ddUpW false).2.count
       (Effect.signalIbEvent IB_EVENT_PORT_ERR) = 1) :=
  ⟨rfl, handle_linkup_change_down envW ddUpW rfl⟩

/-- Recognizer for effects addressed to the upstream event consumer: an
invocation of the event notifier or an actual upstream dispatch. -/
def isUpstreamNotification : Effect → Bool
  | .signalIbEvent _ => true
  | .dispatchIbEvent _ _ _ => true
  | _ => false

/-- Claim C9: an up-transition emits no event toward the upstream event
consumer: neither a notifier invocation nor an upstream dispatch appears
in its effect trace, whatever the registration state. -/
theorem handle_linkup_change_up_no_events (env : Env) (dd : Devdata)
    (h : dd.pport.linkup = false) :
    (handle_linkup_change env dd true).2.all
      (fun e => !isUpstreamNotification e) = true := by
  rw [up_trace_eq env dd h]
  simp only [List.all_append, add_full_mgmt_pkey]
  split
  all_goals split
  all_goals try split
  all_goals simp [isUpstreamNotification]

/-- Witness for C9 at a concrete link-down device. -/
theorem handle_linkup_change_up_no_events_witness :
    ddDownW.pport.linkup = false ∧
    (handle_linkup_change envW ddDownW true).2.all
      (fun e => !isUpstreamNotification e) = true :=
  ⟨rfl, handle_linkup_change_up_no_events envW ddDownW rfl⟩

/-- Claim C4: in an up-transition with management allowed, the
partition-key hardware write and the pkey-change notification both occur
strictly before the store that sets the link-up flag: the trace splits
around the (unique) link-up store with both pkey effects on its left. -/
theorem handle_linkup_change_pkey_before_linkup (env : Env) (dd : Devdata)
    (h : dd.pport.linkup = false)
    (hm : (set_mgmt_allowed env (read_neighbor_info env dd.pport)).mgmt_allowed ≠ 0) :
    ∃ l1 l2,
      (handle_linkup_change env dd true).2 = l1 ++ Effect.writeLinkup true :: l2 ∧
      Effect.setIbCfgPkeys ∈ l1 ∧
      Effect.eventPkeyChange dd.pport.port ∈ l1 ∧
      Effect.writeLinkup true ∉ l1 := by
  have hport := set_mgmt_allowed_port env (read_neighbor_info env dd.pport)
  rw [read_neighbor_info_port] at hport
  rw [up_trace_eq env dd h, if_pos hm]
  simp only [add_full_mgmt_pkey]
  by_cases hq : env.quick_linkup ∨ dd.icode = ICODE_FUNCTIONAL_SIMULATOR
  · rw [if_pos hq]
    by_cases hw : ¬((set_mgmt_allowed env (read_neighbor_info env dd.pport)).pkeys 2 = 0 ∨
        (set_mgmt_allowed env (read_neighbor_info env dd.pport)).pkeys 2 = FULL_MGMT_P_KEY)
    · rw [if_pos hw]
      exact ⟨[.setUpVau dd.vau, .setUpVl15 dd.vl15_init, .assignRemoteCmAuTable dd.vcu,
              .devInfo, .udelay LINK_UP_DELAY, .devWarn, .setIbCfgPkeys,
              .eventPkeyChange (set_mgmt_allowed env (read_neighbor_info env dd.pport)).port],
             [.getLinkupLinkWidths], by simp, by simp, by simp [hport], by simp⟩
    · rw [if_neg hw]
      exact ⟨[.setUpVau dd.vau, .setUpVl15 dd.vl15_init, .assignRemoteCmAuTable dd.vcu,
              .devInfo, .udelay LINK_UP_DELAY, .setIbCfgPkeys,
              .eventPkeyChange (set_mgmt_allowed env (read_neighbor_info env dd.pport)).port],
             [.getLinkupLinkWidths], by simp, by simp, by simp [hport], by simp⟩
  · rw [if_neg hq]
    by_cases hw : ¬((set_mgmt_allowed env (read_neighbor_info env dd.pport)).pkeys 2 = 0 ∨
        (set_mgmt_allowed env (read_neighbor_info env dd.pport)).pkeys 2 = FULL_MGMT_P_KEY)
    · rw [if_pos hw]
      exact ⟨[.devInfo, .udelay LINK_UP_DELAY, .devWarn, .setIbCfgPkeys,
              .eventPkeyChange (set_mgmt_allowed env (read_neighbor_info env dd.pport)).port],
             [.getLinkupLinkWidths], by simp, by simp, by simp [hport], by simp⟩
    · rw [if_neg hw]
      exact ⟨[.devInfo, .udelay LINK_UP_DELAY, .setIbCfgPkeys,
              .eventPkeyChange (set_mgmt_allowed env (read_neighbor_info env dd.pport)).port],
             [.getLinkupLinkWidths], by simp, by simp, by simp [hport], by simp⟩

/-- Witness for C4 at a concrete link-down device whose neighbor is the
adapter-type peer (management unconditionally allowed). -/
theorem handle_linkup_change_pkey_before_linkup_witness :
    ddDownW.pport.linkup = false ∧
    (set_mgmt_allowed envW (read_neighbor_info envW ddDownW.pport)).mgmt_allowed ≠ 0 ∧
    (∃ l1 l2,
      (handle_linkup_change envW ddDownW true).2 = l1 ++ Effect.writeLinkup true :: l2 ∧
      Effect.setIbCfgPkeys ∈ l1 ∧
      Effect.eventPkeyChange ddDownW.pport.port ∈ l1 ∧
      Effect.writeLinkup true ∉ l1) :=
  ⟨rfl, by decide,
   handle_linkup_change_pkey_before_linkup envW ddDownW rfl (by decide)⟩

/-- Claim C5: on a context with a non-empty in-use bitmap: a set receive
flag is cleared, all waiters are woken and the receive interrupt-enable
bit is disabled, leaving the urgent flag and counter untouched (so with
both flags set only the receive branch fires); with only the urgent flag
set, it is cleared, the urgent counter increments by exactly one, exactly
one wake is issued and the interrupt-enable bit is untouched; with neither
flag set nothing happens. -/
theorem handle_user_interrupt_busy (rcd : Ctxtdata) (h : ¬in_use_empty rcd) :
    (rcd.event_flags HFI1_CTXT_WAITING_RCV = true →
      (handle_user_interrupt rcd).1.event_flags HFI1_CTXT_WAITING_RCV = false ∧
      (handle_user_interrupt rcd).1.intravail_enabled = false ∧
      (handle_user_interrupt rcd).2 =
        [Effect.wakeUpInterruptible, Effect.rcvctrlIntravailDis] ∧
      (handle_user_interrupt rcd).1.event_flags HFI1_CTXT_WAITING_URG =
        rcd.event_flags HFI1_CTXT_WAITING_URG ∧
      (handle_user_interrupt rcd).1.urgent = rcd.urgent) ∧
    (rcd.event_flags HFI1_CTXT_WAITING_RCV = false →
     rcd.event_flags HFI1_CTXT_WAITING_URG = true →
      (handle_user_interrupt rcd).1.event_flags HFI1_CTXT_WAITING_URG = false ∧
      (handle_user_interrupt rcd).1.urgent = rcd.urgent + 1 ∧
      (handle_user_interrupt rcd).2 = [Effect.wakeUpInterruptible] ∧
      (handle_user_interrupt rcd).1.intravail_enabled = rcd.intravail_enabled) ∧
    (rcd.event_flags HFI1_CTXT_WAITING_RCV = false →
     rcd.event_flags HFI1_CTXT_WAITING_URG = false →
      handle_user_interrupt rcd = (rcd, [])) := by
  refine ⟨fun hr => ?_, fun hr hu => ?_, fun hr hu => ?_⟩
  · unfold handle_user_interrupt
    simp only [HFI1_CTXT_WAITING_RCV, HFI1_CTXT_WAITING_URG] at hr ⊢
    simp [h, hr, Function.update]
  · unfold handle_user_interrupt
    simp only [HFI1_CTXT_WAITING_RCV, HFI1_CTXT_WAITING_URG] at hr hu ⊢
    simp [h, hr, hu, Function.update]
  · unfold handle_user_interrupt
    simp only [HFI1_CTXT_WAITING_RCV, HFI1_CTXT_WAITING_URG] at hr hu ⊢
    simp [h, hr, hu]

/-- Witness for C5 at a concrete context with a non-empty bitmap and the
receive flag set. -/
theorem handle_user_interrupt_busy_witness :
    ¬in_use_empty rcdBusyW ∧
    ((handle_user_interrupt rcdBusyW).1.event_flags HFI1_CTXT_WAITING_RCV = false ∧
     (handle_user_interrupt rcdBusyW).1.intravail_enabled = false ∧
     (handle_user_interrupt rcdBusyW).2 =
       [Effect.wakeUpInterruptible, Effect.rcvctrlIntravailDis] ∧
     (handle_user_interrupt rcdBusyW).1.event_flags HFI1_CTXT_WAITING_URG =
       rcdBusyW.event_flags HFI1_CTXT_WAITING_URG ∧
     (handle_user_interrupt rcdBusyW).1.urgent = rcdBusyW.urgent) :=
  ⟨by decide, (handle_user_interrupt_busy rcdBusyW (by decide)).1 (by decide)⟩
